import Mathlib

/-!
Shallow embedding of the cinema-expert agent's tool layer (`src/api.py`,
`src/tools.py`) and proofs about it.

Conventions of the embedding:
* A JSON object whose values are strings (the OMDB payloads and dataset
  rows handled by the code) is an association list `Obj`; Python's
  `dict.get(k)` is `pyGet`, `dict.get(k, d)` is `pyGetD`.
* Python's `pat in s` substring test is `strContains s pat`; `str.lower()`
  is `String.toLower`.
* Seconds of delay are rationals (`ℚ`); the network is a function from the
  attempt index to the transport result of that attempt.
* Raising `OMDBAPIError` is modelled by the `ApiResult.failed` constructor
  carrying an `ApiError` that records which raise site fired; `errText`
  recovers the exact message string built at that site.
-/

/-- A JSON object with string values, as an association list (`dict` in the
source). -/
abbrev Obj := List (String × String)

/-- Python `dict.get(k)`: the value at the first matching key, if any. -/
def pyGet (j : Obj) (k : String) : Option String :=
  (j.find? (fun kv => kv.1 == k)).map (fun kv => kv.2)

/-- Python `dict.get(k, d)`: lookup with a default. -/
def pyGetD (j : Obj) (k : String) (d : String) : String :=
  (pyGet j k).getD d

/-- `pat.isPrefixOf s || ...` scanned along `s`: Python's `pat in s`
substring test over the character lists. -/
def occursIn (pat : List Char) : List Char → Bool
  | [] => pat.isEmpty
  | c :: rest => pat.isPrefixOf (c :: rest) || occursIn pat rest

/-- Python's `pat in s` on strings. -/
def strContains (s pat : String) : Bool :=
  occursIn pat.data s.data

/-- Python's `str.lower()`: lowercase each character. -/
def pyLower (s : String) : String :=
  ⟨s.data.map Char.toLower⟩

/-! ## `src/api.py`: `call_omdb_api` -/

/-- The classified failure raised by `call_omdb_api`; each constructor is one
`raise OMDBAPIError(...)` site of `src/api.py`. -/
inductive ApiError where
  /-- `raise OMDBAPIError(f"Rate limit exceeded: {error_message}")` -/
  | rateLimited (em : String)
  /-- `raise OMDBAPIError(f"OMDB API error: {error_message}")` -/
  | omdbError (em : String)
  /-- `raise OMDBAPIError("Request timeout: OMDB API did not respond in time")` -/
  | timeout
  /-- `raise OMDBAPIError(f"Network error: {str(e)}")` -/
  | network (em : String)
  /-- `raise OMDBAPIError("Failed to connect to OMDB API after multiple retries")` -/
  | exhausted
deriving DecidableEq

/-- The message string carried by each `OMDBAPIError` (Python `str(e)`). -/
def errText : ApiError → String
  | .rateLimited em => "Rate limit exceeded: " ++ em
  | .omdbError em => "OMDB API error: " ++ em
  | .timeout => "Request timeout: OMDB API did not respond in time"
  | .network em => "Network error: " ++ em
  | .exhausted => "Failed to connect to OMDB API after multiple retries"

/-- How one `call_omdb_api` invocation resolves: `return data`,
`return None`, or `raise OMDBAPIError`. -/
inductive ApiResult where
  | ok (data : Obj)
  | noneResult
  | failed (e : ApiError)
deriving DecidableEq

/-- The transport outcome of a single attempt: a 2xx response with parsed
JSON, `requests.exceptions.Timeout`, or another
`requests.exceptions.RequestException` (which includes the `HTTPError` from
`raise_for_status`). -/
inductive HttpResult where
  | ok (data : Obj)
  | timeout
  | reqError (em : String)

/-- What one iteration of the retry loop does: leave the loop with a result,
or `time.sleep(pause); continue`. -/
inductive StepOutcome where
  | done (r : ApiResult)
  | retryAfter (pause : ℚ)

/-- `data.get("Error", "Unknown error")` from `src/api.py`. -/
def pyErrMsg (data : Obj) : String :=
  pyGetD data "Error" "Unknown error"

/-- The body of the `for attempt in range(max_retries)` loop of
`call_omdb_api`, for attempt index `attempt` and transport result `h`. -/
def attemptStep (maxRetries : Nat) (retryDelay : ℚ) (attempt : Nat) :
    HttpResult → StepOutcome
  | .ok data =>
    if pyGet data "Response" = some "False" then
      if strContains (pyLower (pyErrMsg data)) "limit"
          || strContains (pyLower (pyErrMsg data)) "quota" then
        if attempt < maxRetries - 1 then
          .retryAfter (retryDelay * ((attempt : ℚ) + 1))
        else
          .done (.failed (.rateLimited (pyErrMsg data)))
      else if strContains (pyLower (pyErrMsg data)) "not found" then
        .done .noneResult
      else
        .done (.failed (.omdbError (pyErrMsg data)))
    else
      .done (.ok data)
  | .timeout =>
    if attempt < maxRetries - 1 then .retryAfter retryDelay
    else .done (.failed .timeout)
  | .reqError em =>
    if attempt < maxRetries - 1 then .retryAfter retryDelay
    else .done (.failed (.network em))

/-- Observable trace of one `call_omdb_api` call: how it resolved, how many
attempts ran, and the argument of each `time.sleep` in order. -/
structure ApiRun where
  result : ApiResult
  attemptsMade : Nat
  sleeps : List ℚ
deriving DecidableEq

/-- The retry loop of `call_omdb_api`: `attempt` is the current loop index,
`rem` the remaining iterations of `range(max_retries)`; falling off the end
of the loop reaches the final `raise OMDBAPIError("Failed to connect ...")`. -/
def callLoop (resp : Nat → HttpResult) (maxRetries : Nat) (retryDelay : ℚ) :
    Nat → Nat → ApiRun
  | attempt, 0 => ⟨.failed .exhausted, attempt, []⟩
  | attempt, rem + 1 =>
    match attemptStep maxRetries retryDelay attempt (resp attempt) with
    | .done r => ⟨r, attempt + 1, []⟩
    | .retryAfter pause =>
      let rest := callLoop resp maxRetries retryDelay (attempt + 1) rem
      ⟨rest.result, rest.attemptsMade, pause :: rest.sleeps⟩

/-- `call_omdb_api(params, max_retries, retry_delay)` of `src/api.py`, for a
configured API key, with the network abstracted as `resp`. -/
def call_omdb_api (resp : Nat → HttpResult) (maxRetries : Nat)
    (retryDelay : ℚ) : ApiRun :=
  callLoop resp maxRetries retryDelay 0 maxRetries


/-! ## `src/tools.py`: formatters -/

/-- The lines of `format_movie_info` of `src/tools.py` (the returned string
joins them with newlines); every field is read with `.get(key, "N/A")`. -/
def format_movie_info_lines (m : Obj) : List String :=
  [ "Название: " ++ pyGetD m "Title" "N/A",
    "Год: " ++ pyGetD m "Year" "N/A",
    "Рейтинг: " ++ pyGetD m "Rated" "N/A",
    "Дата выхода: " ++ pyGetD m "Released" "N/A",
    "Длительность: " ++ pyGetD m "Runtime" "N/A",
    "Жанр: " ++ pyGetD m "Genre" "N/A",
    "Режиссер: " ++ pyGetD m "Director" "N/A",
    "Актеры: " ++ pyGetD m "Actors" "N/A",
    "Описание: " ++ pyGetD m "Plot" "N/A",
    "Язык: " ++ pyGetD m "Language" "N/A",
    "Страна: " ++ pyGetD m "Country" "N/A",
    "Награды: " ++ pyGetD m "Awards" "N/A",
    "IMDb рейтинг: " ++ pyGetD m "imdbRating" "N/A" ++ "/10 ("
      ++ pyGetD m "imdbVotes" "N/A" ++ " голосов)" ]

/-- `format_movie_info` of `src/tools.py`. -/
def format_movie_info (m : Obj) : String :=
  String.intercalate "\n" (format_movie_info_lines m)

/-- Python `row[k]` on a dict-like row: the value, or a raised `KeyError`. -/
def pyItem (row : Obj) (k : String) : Except String String :=
  match pyGet row k with
  | some v => .ok v
  | none => .error ("KeyError: " ++ k)

/-- `format_movie_from_csv` of `src/tools.py`: the f-string indexes the row
directly (`movie_row['Series_Title']`, ...), in textual order, with no
default, so a missing field is a raised `KeyError` (`Except.error`). -/
def format_movie_from_csv (row : Obj) : Except String String :=
  match pyItem row "Series_Title" with
  | .error e => .error e
  | .ok t =>
  match pyItem row "Released_Year" with
  | .error e => .error e
  | .ok y =>
  match pyItem row "IMDB_Rating" with
  | .error e => .error e
  | .ok rt =>
  match pyItem row "Genre" with
  | .error e => .error e
  | .ok g =>
  match pyItem row "Director" with
  | .error e => .error e
  | .ok dir =>
  match pyItem row "Star1" with
  | .error e => .error e
  | .ok s1 =>
  match pyItem row "Star2" with
  | .error e => .error e
  | .ok s2 =>
  match pyItem row "Star3" with
  | .error e => .error e
  | .ok s3 =>
  match pyItem row "Star4" with
  | .error e => .error e
  | .ok s4 =>
  match pyItem row "Overview" with
  | .error e => .error e
  | .ok ov =>
  .ok ("Название: " ++ t ++ "\nГод: " ++ y ++ "\nРейтинг IMDb: " ++ rt
    ++ "/10\nЖанр: " ++ g ++ "\nРежиссер: " ++ dir ++ "\nАктеры: " ++ s1
    ++ ", " ++ s2 ++ ", " ++ s3 ++ ", " ++ s4 ++ "\nОписание: " ++ ov
    ++ "\n\n(Источник: IMDb Top 1000 локальный датасет)")

/-- Whether an `Except`-valued computation raised. -/
def raisesErr : Except String String → Bool
  | .ok _ => false
  | .error _ => true

/-- The row fields `format_movie_from_csv` indexes. -/
def csvKeys : List String :=
  ["Series_Title", "Released_Year", "IMDB_Rating", "Genre", "Director",
   "Star1", "Star2", "Star3", "Star4", "Overview"]

/-- All fields indexed by `format_movie_from_csv` are present in the row. -/
def csvKeysPresent (row : Obj) : Bool :=
  csvKeys.all (fun k => (pyGet row k).isSome)

/-! ## `src/tools.py`: search-list tools -/

/-- Outcome of `call_omdb_api` as seen by the `s=`-query tools: the payload
of a search response carries `totalResults` (absent key = `none`) and the
`Search` list (`result.get("Search", [])`, absent = `[]`). -/
inductive SearchOutcome where
  | ok (totalResults : Option String) (search : List Obj)
  | noneResult
  | failed (e : ApiError)

/-- The numbered lines of `search_movies_list`:
`for i, movie in enumerate(movies[:10], 1)` with line
`f"{i}. {title} ({year}) - {movie_type}"`. -/
def searchListLines (movies : List Obj) : List String :=
  (movies.take 10).enum.map (fun im =>
    toString (im.1 + 1) ++ ". " ++ pyGetD im.2 "Title" "N/A" ++ " ("
      ++ pyGetD im.2 "Year" "N/A" ++ ") - " ++ pyGetD im.2 "Type" "N/A")

/-- The numbered lines of `search_movies_by_year_and_type`:
`for i, movie in enumerate(movies, 1)` — no `[:10]` slice — with line
`f"{i}. {title} ({year})"` — no type. -/
def searchYearTypeLines (movies : List Obj) : List String :=
  movies.enum.map (fun im =>
    toString (im.1 + 1) ++ ". " ++ pyGetD im.2 "Title" "N/A" ++ " ("
      ++ pyGetD im.2 "Year" "N/A" ++ ")")

/-- The spec's `formatSearchList`, written from its words: "numbers results
1..N, truncated to the first 10 regardless of totalCount, each line
`\x7bindex\x7d. \x7btitle\x7d (\x7byear\x7d) - \x7btype\x7d`". Used to compare the two
search tools' renderings against the spec. -/
def specFormatSearchList (records : List Obj) : List String :=
  (records.take 10).enum.map (fun im =>
    toString (im.1 + 1) ++ ". " ++ pyGetD im.2 "Title" "N/A" ++ " ("
      ++ pyGetD im.2 "Year" "N/A" ++ ") - " ++ pyGetD im.2 "Type" "N/A")

/-- `f"Фильмы по запросу '{query}' не найдены."` -/
def noResultsMsg (query : String) : String :=
  "Фильмы по запросу '" ++ query ++ "' не найдены."

/-- `search_movies_list` of `src/tools.py`, given the outcome of its
`call_omdb_api({"s": query, ...})` call. -/
def search_movies_list (query : String) (outcome : SearchOutcome) : String :=
  match outcome with
  | .failed e => "Ошибка при поиске фильмов: " ++ errText e
  | .noneResult => noResultsMsg query
  | .ok tr movies =>
    if tr = some "0" then noResultsMsg query
    else if movies.isEmpty then noResultsMsg query
    else
      "Найдено " ++ tr.getD (toString movies.length)
        ++ " фильмов по запросу '" ++ query ++ "':\n\n"
        ++ String.join ((searchListLines movies).map (fun l => l ++ "\n"))
        ++ "\nИспользуйте search_movie_by_title с точным названием для получения подробной информации."

/-- `f"Фильмы по запросу '{query}' ({year}, {movie_type}) не найдены."` -/
def yearTypeNoResults (query year mtype : String) : String :=
  "Фильмы по запросу '" ++ query ++ "' (" ++ year ++ ", " ++ mtype
    ++ ") не найдены."

/-- `search_movies_by_year_and_type` of `src/tools.py`, given the outcome of
its `call_omdb_api({"s": query, "y": year, "type": movie_type})` call. -/
def search_movies_by_year_and_type (query year mtype : String)
    (outcome : SearchOutcome) : String :=
  match outcome with
  | .failed e => "Ошибка при поиске: " ++ errText e
  | .noneResult => yearTypeNoResults query year mtype
  | .ok tr movies =>
    if tr = some "0" then yearTypeNoResults query year mtype
    else if movies.isEmpty then noResultsMsg query
    else
      "Найдено " ++ tr.getD (toString movies.length) ++ " фильмов ("
        ++ year ++ ", " ++ mtype ++ "):\n\n"
        ++ String.join ((searchYearTypeLines movies).map (fun l => l ++ "\n"))

/-! ## `src/tools.py`: dataset (`df`) and CSV-backed tools -/

/-- One row of the loaded IMDb Top 1000 dataframe: every column of the CSV
is present, the rating column is numeric (parsed by `pd.read_csv`). -/
structure CsvRow where
  seriesTitle : String
  releasedYear : String
  imdbRating : ℚ
  genre : String
  director : String
  star1 : String
  star2 : String
  star3 : String
  star4 : String
  overview : String

/-- A dataframe row as the dict-like object handed to
`format_movie_from_csv` (`result.iloc[0]`): all columns present, the numeric
rating rendered on interpolation. -/
def CsvRow.toRecord (r : CsvRow) : Obj :=
  [("Series_Title", r.seriesTitle), ("Released_Year", r.releasedYear),
   ("IMDB_Rating", toString r.imdbRating), ("Genre", r.genre),
   ("Director", r.director), ("Star1", r.star1), ("Star2", r.star2),
   ("Star3", r.star3), ("Star4", r.star4), ("Overview", r.overview)]

/-- The module-level `try: df = pd.read_csv(...) except: df = None` of
`src/tools.py`: a load failure is caught and leaves `df = None` instead of
propagating out of module initialization. -/
def loadDf (loadResult : Except String (List CsvRow)) : Option (List CsvRow) :=
  match loadResult with
  | .ok rows => some rows
  | .error _ => none

/-- `"Локальный датасет IMDb Top 1000 недоступен."` -/
def unavailableMsg : String :=
  "Локальный датасет IMDb Top 1000 недоступен."

/-- `df[col].str.contains(pat, case=False, na=False)` on one cell for a
pattern free of regex metacharacters, where pandas' default `regex=True`
semantics coincides with case-insensitive literal substring match. The
compile step of `str.contains`, which can raise `re.error` on other
patterns, is modelled explicitly for the title-search path below
(`ReCompile`); the dataset tools using this shorthand are proved about only
at their `df is None` guard. -/
def cellContains (cell pat : String) : Bool :=
  strContains (pyLower cell) (pyLower pat)

/-- Stable insertion keeping larger ratings first; ties keep earlier rows
first, like `nlargest(..., keep='first')`. -/
def insertDesc (x : CsvRow) : List CsvRow → List CsvRow
  | [] => [x]
  | y :: ys =>
    if y.imdbRating ≤ x.imdbRating then x :: y :: ys
    else y :: insertDesc x ys

/-- Stable descending sort by rating. -/
def sortDesc : List CsvRow → List CsvRow
  | [] => []
  | x :: xs => insertDesc x (sortDesc xs)

/-- `df.nlargest(limit, "IMDB_Rating")`. -/
def nlargest (limit : Nat) (rows : List CsvRow) : List CsvRow :=
  (sortDesc rows).take limit

/-- `f"{Series_Title} ({Released_Year}) - {IMDB_Rating}/10"`, the line shared
by the CSV-backed list tools. -/
def rowLine (r : CsvRow) : String :=
  r.seriesTitle ++ " (" ++ r.releasedYear ++ ") - "
    ++ toString r.imdbRating ++ "/10"

/-- `get_top_movies_by_genre` of `src/tools.py`. -/
def get_top_movies_by_genre (genre : String) (limit : Nat)
    (df : Option (List CsvRow)) : String :=
  match df with
  | none => unavailableMsg
  | some rows =>
    let filtered := rows.filter (fun r => cellContains r.genre genre)
    if filtered.isEmpty then
      "Фильмы жанра '" ++ genre ++ "' не найдены в датасете."
    else
      "Топ-" ++ toString limit ++ " фильмов жанра " ++ genre
        ++ " (из IMDb Top 1000):\n\n"
        ++ String.join ((nlargest limit filtered).map (fun r => rowLine r ++ "\n"))

/-- `get_movies_by_director` of `src/tools.py`. -/
def get_movies_by_director (director : String)
    (df : Option (List CsvRow)) : String :=
  match df with
  | none => unavailableMsg
  | some rows =>
    let result := rows.filter (fun r => cellContains r.director director)
    if result.isEmpty then
      "Фильмы режиссера '" ++ director ++ "' не найдены в датасете IMDb Top 1000."
    else
      "Фильмы режиссера " ++ director ++ " (из IMDb Top 1000):\n\n"
        ++ String.intercalate "\n" (result.map rowLine)

/-- `get_movies_by_actor` of `src/tools.py`. -/
def get_movies_by_actor (actor : String)
    (df : Option (List CsvRow)) : String :=
  match df with
  | none => unavailableMsg
  | some rows =>
    let result := rows.filter (fun r =>
      cellContains r.star1 actor || cellContains r.star2 actor
        || cellContains r.star3 actor || cellContains r.star4 actor)
    if result.isEmpty then
      "Фильмы с актером '" ++ actor ++ "' не найдены в датасете IMDb Top 1000."
    else
      "Фильмы с " ++ actor ++ " (из IMDb Top 1000):\n\n"
        ++ String.intercalate "\n" (result.map rowLine)

/-- `f" жанра {genre}" if genre else ""` (Python truthiness: `None` and `""`
are falsy). -/
def genreSuffix (genre : Option String) : String :=
  match genre with
  | some g => if g.isEmpty then "" else " жанра " ++ g
  | none => ""

/-- `f" ({genre})" if genre else ""`. -/
def genreParen (genre : Option String) : String :=
  match genre with
  | some g => if g.isEmpty then "" else " (" ++ g ++ ")"
  | none => ""

/-- `get_movies_by_rating` of `src/tools.py`. -/
def get_movies_by_rating (minRating : ℚ) (genre : Option String)
    (limit : Nat) (df : Option (List CsvRow)) : String :=
  match df with
  | none => unavailableMsg
  | some rows =>
    let filtered := rows.filter (fun r => minRating ≤ r.imdbRating)
    let filtered2 :=
      match genre with
      | some g =>
        if g.isEmpty then filtered
        else filtered.filter (fun r => cellContains r.genre g)
      | none => filtered
    if filtered2.isEmpty then
      "Фильмы" ++ genreSuffix genre ++ " с рейтингом ≥ " ++ toString minRating
        ++ " не найдены в датасете."
    else
      "Фильмы" ++ genreParen genre ++ " с рейтингом ≥ " ++ toString minRating
        ++ " (из IMDb Top 1000):\n\n"
        ++ String.join ((nlargest limit filtered2).map (fun r =>
          rowLine r ++ "\n  Жанр: " ++ r.genre ++ "\n  Режиссер: "
            ++ r.director ++ "\n\n"))

/-! ## `src/tools.py`: `search_movie_by_title` and its fallback -/

/-- The final not-found message of `search_movie_by_title`. -/
def titleNotFoundMsg (title : String) : String :=
  "Фильм '" ++ title
    ++ "' не найден ни в OMDB API, ни в локальном датасете IMDb Top 1000. Попробуйте использовать search_movies_list для поиска по частичному совпадению."

/-- The characters special to Python's `re` syntax; a pattern containing
none of them is matched by `re.search` as a literal. -/
def reSpecial (c : Char) : Bool :=
  ['.', '^', '$', '*', '+', '?', '\x7b', '\x7d', '[', ']', '\\', '|',
   '(', ')'].contains c

/-- The pattern has no regex metacharacter, so `re` matches it literally. -/
def reLiteralPat (pat : String) : Bool :=
  pat.data.all (fun c => ! reSpecial c)

/-- The cell matcher a compiled metacharacter-free pattern denotes under
`re.IGNORECASE` (the `case=False` flag): case-insensitive literal substring
search. -/
def literalMatcher (pat : String) : String → Bool :=
  fun cell => cellContains cell pat

/-- The compile step of `pandas.Series.str.contains(pat, case=False,
na=False)`: pandas compiles `pat` once as a regular expression
(`regex=True` is the default), and an invalid pattern raises `re.error`.
The regex engine is external library code, so the embedding abstracts it as
a function from the pattern to either the raised `re.error` (as
`Except.error`) or the per-cell matcher. -/
abbrev ReCompile := String → Except String (String → Bool)

/-- The regex-engine fact the positive theorems assume of a `ReCompile`:
a metacharacter-free pattern compiles, to the literal case-insensitive
matcher (true of Python's `re`). -/
def LiteralFaithful (compile : ReCompile) : Prop :=
  ∀ pat, reLiteralPat pat = true → compile pat = .ok (literalMatcher pat)

/-- A minimal concrete engine for closed witnesses, implementing exactly
the facts of Python's `re` the theorems assume: metacharacter-free patterns
compile to the literal matcher, and a pattern with a metacharacter — in
particular the unbalanced "(", on which `re.compile` raises
`re.error("missing ), unterminated subpattern")` — raises `re.error`.
(Python's `re` accepts some metacharacter patterns this instance rejects;
no witness uses such a pattern.) -/
def reWitnessCompile : ReCompile := fun pat =>
  if reLiteralPat pat then .ok (literalMatcher pat)
  else .error ("re.error: bad pattern: " ++ pat)

/-- The CSV-fallback part of `search_movie_by_title`:
`df[df["Series_Title"].str.contains(title, case=False, na=False)]` compiles
the user-supplied `title` as a regex (raising `re.error` on an invalid
pattern — uncaught, since the tool only catches `OMDBAPIError`), then
formats the first matching row, else returns the not-found message;
`df is None` skips the lookup and falls to the not-found message. -/
def csvFallback (compile : ReCompile) (df : Option (List CsvRow))
    (title : String) : Except String String :=
  match df with
  | some rows =>
    match compile title with
    | .error e => .error e
    | .ok matcher =>
      match rows.filter (fun r => matcher r.seriesTitle) with
      | r :: _ => format_movie_from_csv r.toRecord
      | [] => .ok (titleNotFoundMsg title)
  | none => .ok (titleNotFoundMsg title)

/-- `search_movie_by_title` of `src/tools.py`, given the outcome of its
`call_omdb_api({"t": title, ...})` call (the `except OMDBAPIError: pass`
makes every raise of the API client fall through to the CSV fallback, like
a `None` result). -/
def search_movie_by_title (compile : ReCompile) (outcome : ApiResult)
    (df : Option (List CsvRow)) (title : String) : Except String String :=
  match outcome with
  | .ok data => .ok (format_movie_info data)
  | .noneResult => csvFallback compile df title
  | .failed _ => csvFallback compile df title

/-! ## `src/tools.py`: `compare_two_movies` -/

/-- The seven comparison blocks of `compare_two_movies`, as
(field label, entry for movie 1, entry for movie 2); the rating entries
carry the `/10` suffix of the source f-string. -/
def comparisonFields (d1 d2 : Obj) : List (String × String × String) :=
  [("Год выпуска", pyGetD d1 "Year" "N/A", pyGetD d2 "Year" "N/A"),
   ("Жанр", pyGetD d1 "Genre" "N/A", pyGetD d2 "Genre" "N/A"),
   ("Режиссер", pyGetD d1 "Director" "N/A", pyGetD d2 "Director" "N/A"),
   ("IMDb рейтинг", pyGetD d1 "imdbRating" "N/A" ++ "/10",
     pyGetD d2 "imdbRating" "N/A" ++ "/10"),
   ("Длительность", pyGetD d1 "Runtime" "N/A", pyGetD d2 "Runtime" "N/A"),
   ("Актеры", pyGetD d1 "Actors" "N/A", pyGetD d2 "Actors" "N/A"),
   ("Награды", pyGetD d1 "Awards" "N/A", pyGetD d2 "Awards" "N/A")]

/-- One block: `f"{label}:\n  • {title1}: {v1}\n  • {title2}: {v2}"`. -/
def comparisonSection (t1 t2 : String) (row : String × String × String) :
    String :=
  row.1 ++ ":\n  • " ++ t1 ++ ": " ++ row.2.1 ++ "\n  • " ++ t2 ++ ": "
    ++ row.2.2

/-- The comparison string `compare_two_movies` builds when both lookups
return data. -/
def comparisonText (d1 d2 : Obj) : String :=
  "Сравнение фильмов:\n\nФИЛЬМ 1: " ++ pyGetD d1 "Title" "N/A"
    ++ "\nФИЛЬМ 2: " ++ pyGetD d2 "Title" "N/A" ++ "\n\n"
    ++ String.intercalate "\n\n" ((comparisonFields d1 d2).map
      (comparisonSection (pyGetD d1 "Title" "N/A") (pyGetD d2 "Title" "N/A")))

/-- `compare_two_movies` of `src/tools.py`, with the API lookup a fixed
function from title to outcome; the first lookup's raise wins over the
second's, which wins over the `None` checks, as in the source's
statement order. -/
def compare_two_movies (api : String → ApiResult) (t1 t2 : String) : String :=
  match api t1 with
  | .failed e => "Ошибка при сравнении фильмов: " ++ errText e
  | .noneResult =>
    match api t2 with
    | .failed e => "Ошибка при сравнении фильмов: " ++ errText e
    | _ => "Первый фильм '" ++ t1 ++ "' не найден."
  | .ok d1 =>
    match api t2 with
    | .failed e => "Ошибка при сравнении фильмов: " ++ errText e
    | .noneResult => "Второй фильм '" ++ t2 ++ "' не найден."
    | .ok d2 => comparisonText d1 d2

/-- A sample dataframe row for concrete witnesses. -/
def matrixRow : CsvRow :=
  ⟨"The Matrix", "1999", 87/10, "Action, Sci-Fi", "Lana Wachowski",
   "Keanu Reeves", "Laurence Fishburne", "Carrie-Anne Moss", "Hugo Weaving",
   "A computer hacker learns about the true nature of reality."⟩

/-! ## Loop lemmas for `call_omdb_api` -/

/-- If every attempt gets the same rate-limited payload `p`, the loop started
at index `attempt` with `rem` remaining iterations sleeps
`d*(attempt+1), ..., d*(m-1)` and ends in the rate-limit failure after the
last attempt. -/
theorem callLoop_const_limit (p : Obj) (m : Nat) (d : ℚ)
    (hresp : pyGet p "Response" = some "False")
    (hlim : (strContains (pyLower (pyErrMsg p)) "limit"
      || strContains (pyLower (pyErrMsg p)) "quota") = true) :
    ∀ rem attempt, attempt + rem = m → 1 ≤ rem →
      callLoop (fun _ => .ok p) m d attempt rem =
        ⟨.failed (.rateLimited (pyErrMsg p)), m,
          (List.range' attempt (rem - 1)).map (fun a : Nat => d * ((a : ℚ) + 1))⟩ := by
  intro rem
  induction rem with
  | zero => intro attempt _ h2; omega
  | succ r ih =>
    intro attempt hsum _
    by_cases hlt : attempt < m - 1
    · have hstep : attemptStep m d attempt (HttpResult.ok p) =
          .retryAfter (d * ((attempt : ℚ) + 1)) := by
        simp [attemptStep, hresp, hlim, hlt]
      obtain ⟨r', rfl⟩ : ∃ r', r = r' + 1 := ⟨r - 1, by omega⟩
      rw [callLoop]
      simp only [hstep]
      rw [ih (attempt + 1) (by omega) (by omega)]
      rw [show r' + 1 + 1 - 1 = r' + 1 from rfl, show r' + 1 - 1 = r' from rfl,
        List.range'_succ, List.map_cons]
    · have hstep : attemptStep m d attempt (HttpResult.ok p) =
          .done (.failed (.rateLimited (pyErrMsg p))) := by
        simp [attemptStep, hresp, hlim, hlt]
      have hstop : attempt + 1 = m := by omega
      have hr0 : r = 0 := by omega
      subst hr0
      rw [callLoop]
      simp [hstep, hstop]

/-- If every attempt times out, the loop started at index `attempt` with
`rem` remaining iterations sleeps plain `d` before each retry and ends in the
timeout failure after the last attempt. -/
theorem callLoop_const_timeout (m : Nat) (d : ℚ) :
    ∀ rem attempt, attempt + rem = m → 1 ≤ rem →
      callLoop (fun _ => .timeout) m d attempt rem =
        ⟨.failed .timeout, m, List.replicate (rem - 1) d⟩ := by
  intro rem
  induction rem with
  | zero => intro attempt _ h2; omega
  | succ r ih =>
    intro attempt hsum _
    by_cases hlt : attempt < m - 1
    · have hstep : attemptStep m d attempt HttpResult.timeout =
          .retryAfter d := by
        simp [attemptStep, hlt]
      obtain ⟨r', rfl⟩ : ∃ r', r = r' + 1 := ⟨r - 1, by omega⟩
      rw [callLoop]
      simp only [hstep]
      rw [ih (attempt + 1) (by omega) (by omega)]
      simp [List.replicate_succ]
    · have hstep : attemptStep m d attempt HttpResult.timeout =
          .done (.failed .timeout) := by
        simp [attemptStep, hlt]
      have hstop : attempt + 1 = m := by omega
      have hr0 : r = 0 := by omega
      subst hr0
      rw [callLoop]
      simp [hstep, hstop]

/-- C1: if on every attempt the transport succeeds but the payload is
`{"Response": "False"}` with an error message containing "limit" or "quota"
(case-insensitively), then `call_omdb_api` makes exactly `maxRetries`
attempts, sleeping `d, 2d, 3d, ...` between consecutive attempts, and
resolves by raising the rate-limit failure
(`OMDBAPIError("Rate limit exceeded: ...")`). -/
theorem c1_rate_limit_exhaustion (p : Obj) (m : Nat) (d : ℚ)
    (hresp : pyGet p "Response" = some "False")
    (hlim : (strContains (pyLower (pyErrMsg p)) "limit"
      || strContains (pyLower (pyErrMsg p)) "quota") = true)
    (hm : 1 ≤ m) :
    call_omdb_api (fun _ => .ok p) m d =
      ⟨.failed (.rateLimited (pyErrMsg p)), m,
        (List.range (m - 1)).map (fun a : Nat => d * ((a : ℚ) + 1))⟩ := by
  rw [call_omdb_api, callLoop_const_limit p m d hresp hlim m 0 (by omega) hm,
    List.range_eq_range']

/-- Witness for C1 at the spec's simulated payload, `maxRetries = 3`,
`d = 1`: three attempts, sleeps `[1, 2]`, rate-limited failure. -/
theorem c1_rate_limit_exhaustion_witness :
    call_omdb_api
        (fun _ => .ok [("Response", "False"), ("Error", "Request limit reached")])
        3 1 =
      ⟨.failed (.rateLimited "Request limit reached"), 3, [1, 2]⟩ := by
  rw [c1_rate_limit_exhaustion _ 3 1 (by decide) (by decide) (by omega)]
  have h1 : pyErrMsg [("Response", "False"), ("Error", "Request limit reached")]
      = "Request limit reached" := by decide
  rw [h1]
  norm_num [List.range_succ]

/-- C2: if every attempt raises the transport timeout, `call_omdb_api` makes
exactly `maxRetries` attempts, sleeping a constant `d` (not scaled) before
each retry — `maxRetries - 1` pauses in all — and resolves by raising the
timeout failure (`OMDBAPIError("Request timeout: ...")`). -/
theorem c2_timeout_exhaustion (m : Nat) (d : ℚ) (hm : 1 ≤ m) :
    call_omdb_api (fun _ => .timeout) m d =
      ⟨.failed .timeout, m, List.replicate (m - 1) d⟩ := by
  rw [call_omdb_api, callLoop_const_timeout m d m 0 (by omega) hm]

/-- Witness for C2 at `maxRetries = 3`, `d = 1`: three attempts, two
unscaled sleeps `[1, 1]`, timeout failure. -/
theorem c2_timeout_exhaustion_witness :
    call_omdb_api (fun _ => .timeout) 3 1 =
      ⟨.failed .timeout, 3, [1, 1]⟩ := by
  rw [c2_timeout_exhaustion 3 1 (by omega)]
  rfl

/-- C3 counterexample: the payload `{"Response": "False", "Error": "limit not
found"}` has an error message containing "not found", yet with
`maxRetries = 1` the call raises the rate-limit failure instead of
returning `None`: the limit/quota check of `src/api.py` runs before the
not-found check, so a message containing both is treated as rate-limited. -/
theorem c3_counterexample :
    strContains (pyLower (pyErrMsg [("Response", "False"), ("Error", "limit not found")]))
        "not found" = true ∧
    pyGet [("Response", "False"), ("Error", "limit not found")] "Response" = some "False" ∧
    (call_omdb_api (fun _ => .ok [("Response", "False"), ("Error", "limit not found")]) 1 1).result
      = .failed (.rateLimited "limit not found") := by
  refine ⟨by decide, by decide, ?_⟩
  rw [c1_rate_limit_exhaustion _ 1 1 (by decide) (by decide) (by omega)]
  decide

/-- C3 (amended): if the first attempt's transport succeeds with a
`{"Response": "False"}` payload whose error message contains "not found" but
neither "limit" nor "quota" (case-insensitively), then `call_omdb_api`
returns `None` on the first attempt: one attempt, no sleeps, no error. -/
theorem c3_not_found_first_attempt (resp : Nat → HttpResult) (p : Obj)
    (m : Nat) (d : ℚ)
    (h0 : resp 0 = .ok p)
    (hresp : pyGet p "Response" = some "False")
    (hnf : strContains (pyLower (pyErrMsg p)) "not found" = true)
    (hnl : strContains (pyLower (pyErrMsg p)) "limit" = false)
    (hnq : strContains (pyLower (pyErrMsg p)) "quota" = false)
    (hm : 1 ≤ m) :
    call_omdb_api resp m d = ⟨.noneResult, 1, []⟩ := by
  obtain ⟨m', rfl⟩ : ∃ m', m = m' + 1 := ⟨m - 1, by omega⟩
  rw [call_omdb_api, callLoop]
  simp [h0, attemptStep, hresp, hnl, hnq, hnf]

/-- Witness for the amended C3 at the spec's simulated payload
`{"Response": "False", "Error": "Movie not found!"}`, `maxRetries = 3`. -/
theorem c3_not_found_first_attempt_witness :
    call_omdb_api (fun _ => .ok [("Response", "False"), ("Error", "Movie not found!")]) 3 1
      = ⟨.noneResult, 1, []⟩ :=
  c3_not_found_first_attempt _ _ 3 1 rfl (by decide) (by decide) (by decide)
    (by decide) (by omega)

/-! ## Reachability of the post-loop raise (C10) -/

/-- When the loop body leaves the loop, the result is never the post-loop
exhaustion failure: every `done` result of `attemptStep` is a `return` or
one of the in-loop raise sites. -/
theorem attemptStep_done_ne_exhausted (m : Nat) (d : ℚ) (a : Nat)
    (h : HttpResult) (r : ApiResult)
    (hd : attemptStep m d a h = .done r) : r ≠ .failed .exhausted := by
  rcases h with data | _ | em <;>
    simp only [attemptStep] at hd <;>
    split_ifs at hd <;>
    (try cases hd) <;>
    simp

/-- The loop body only retries while `attempt < max_retries - 1`. -/
theorem attemptStep_retry_lt (m : Nat) (d : ℚ) (a : Nat) (h : HttpResult)
    (s : ℚ) (hr : attemptStep m d a h = .retryAfter s) : a < m - 1 := by
  rcases h with data | _ | em <;>
    simp only [attemptStep] at hr <;>
    split_ifs at hr <;>
    (try cases hr) <;>
    assumption

/-- Started with `attempt + rem = max_retries` and at least one remaining
iteration, the retry loop always resolves inside the loop. -/
theorem callLoop_ne_exhausted (resp : Nat → HttpResult) (m : Nat) (d : ℚ) :
    ∀ rem attempt, attempt + rem = m → 1 ≤ rem →
      (callLoop resp m d attempt rem).result ≠ .failed .exhausted := by
  intro rem
  induction rem with
  | zero => intro attempt _ h2; omega
  | succ r ih =>
    intro attempt hsum _
    rw [callLoop]
    cases hstep : attemptStep m d attempt (resp attempt) with
    | done rr =>
      simpa using attemptStep_done_ne_exhausted m d attempt (resp attempt) rr hstep
    | retryAfter s =>
      have hlt := attemptStep_retry_lt m d attempt (resp attempt) s hstep
      simpa using ih (attempt + 1) (by omega) (by omega)

/-- C10: for every response sequence, `call_omdb_api` resolves inside the
attempt loop whenever `max_retries ≥ 1`; the final
`raise OMDBAPIError("Failed to connect to OMDB API after multiple retries")`
after the loop is reached exactly when `max_retries` is zero (Python
`max_retries <= 0`, since `range(max_retries)` is then empty). -/
theorem c10_post_loop_raise_iff_no_budget (resp : Nat → HttpResult)
    (m : Nat) (d : ℚ) :
    (call_omdb_api resp m d).result = .failed .exhausted ↔ m = 0 := by
  constructor
  · intro h
    by_contra hm
    exact callLoop_ne_exhausted resp m d m 0 (by omega) (by omega) h
  · rintro rfl
    rfl

/-! ## Lookup lemmas -/

/-- Appending one binding: the lookup hits it only when the original object
lacks the queried key and the keys agree. -/
theorem pyGet_append (m : Obj) (k v kq : String) :
    pyGet (m ++ [(k, v)]) kq =
      match pyGet m kq with
      | some w => some w
      | none => if k == kq then some v else none := by
  induction m with
  | nil =>
    simp only [List.nil_append, pyGet, List.find?]
    cases hh : k == kq <;> simp_all
  | cons hd tl ih =>
    simp only [List.cons_append, pyGet, List.find?] at ih ⊢
    cases hh : hd.1 == kq
    · simpa [hh] using ih
    · simp [hh]

/-- Appending a binding for a different key leaves a defaulted lookup
unchanged. -/
theorem pyGetD_append_ne (m : Obj) (k v f dflt : String)
    (h : (k == f) = false) :
    pyGetD (m ++ [(k, v)]) f dflt = pyGetD m f dflt := by
  rw [pyGetD, pyGetD, pyGet_append]
  cases pyGet m f <;> simp [h]

/-- Appending a binding for an absent key makes its defaulted lookup return
the new value. -/
theorem pyGetD_append_hit (m : Obj) (k v dflt : String)
    (h : pyGet m k = none) :
    pyGetD (m ++ [(k, v)]) k dflt = v := by
  rw [pyGetD, pyGet_append, h]
  simp

/-- A defaulted lookup of an absent key is the default. -/
theorem pyGetD_of_none (m : Obj) (k dflt : String) (h : pyGet m k = none) :
    pyGetD m k dflt = dflt := by
  rw [pyGetD, h]
  rfl

/-- `format_movie_from_csv` raises exactly when some indexed field is
absent from the row. -/
theorem format_movie_from_csv_raises_iff (row : Obj) :
    raisesErr (format_movie_from_csv row) = ! csvKeysPresent row := by
  cases h1 : pyGet row "Series_Title" with
  | none => simp [format_movie_from_csv, pyItem, h1, csvKeysPresent, csvKeys, raisesErr]
  | some v1 =>
  cases h2 : pyGet row "Released_Year" with
  | none => simp [format_movie_from_csv, pyItem, h1, h2, csvKeysPresent, csvKeys, raisesErr]
  | some v2 =>
  cases h3 : pyGet row "IMDB_Rating" with
  | none => simp [format_movie_from_csv, pyItem, h1, h2, h3, csvKeysPresent, csvKeys, raisesErr]
  | some v3 =>
  cases h4 : pyGet row "Genre" with
  | none => simp [format_movie_from_csv, pyItem, h1, h2, h3, h4, csvKeysPresent, csvKeys, raisesErr]
  | some v4 =>
  cases h5 : pyGet row "Director" with
  | none => simp [format_movie_from_csv, pyItem, h1, h2, h3, h4, h5, csvKeysPresent, csvKeys, raisesErr]
  | some v5 =>
  cases h6 : pyGet row "Star1" with
  | none => simp [format_movie_from_csv, pyItem, h1, h2, h3, h4, h5, h6, csvKeysPresent, csvKeys, raisesErr]
  | some v6 =>
  cases h7 : pyGet row "Star2" with
  | none => simp [format_movie_from_csv, pyItem, h1, h2, h3, h4, h5, h6, h7, csvKeysPresent, csvKeys, raisesErr]
  | some v7 =>
  cases h8 : pyGet row "Star3" with
  | none => simp [format_movie_from_csv, pyItem, h1, h2, h3, h4, h5, h6, h7, h8, csvKeysPresent, csvKeys, raisesErr]
  | some v8 =>
  cases h9 : pyGet row "Star4" with
  | none => simp [format_movie_from_csv, pyItem, h1, h2, h3, h4, h5, h6, h7, h8, h9, csvKeysPresent, csvKeys, raisesErr]
  | some v9 =>
  cases h10 : pyGet row "Overview" with
  | none => simp [format_movie_from_csv, pyItem, h1, h2, h3, h4, h5, h6, h7, h8, h9, h10, csvKeysPresent, csvKeys, raisesErr]
  | some v10 =>
  simp [format_movie_from_csv, pyItem, h1, h2, h3, h4, h5, h6, h7, h8, h9, h10, csvKeysPresent, csvKeys, raisesErr]

/-- C6 counterexample: on a row without the `Series_Title` field (every
field access is supposed to "tolerate absence"), `format_movie_from_csv`
raises a `KeyError` instead of substituting "N/A": it has a failure mode
beyond missing-field substitution. -/
theorem c6_counterexample :
    format_movie_from_csv [] = Except.error "KeyError: Series_Title" ∧
    raisesErr (format_movie_from_csv []) = true := by
  exact ⟨rfl, rfl⟩

/-- C6 (amended): `format_movie_info` is a total function that treats every
absent field exactly as the "N/A" default (appending an explicit `"N/A"`
binding for an absent key leaves its output unchanged), while
`format_movie_from_csv` substitutes no default: it raises a `KeyError`
exactly when one of its indexed fields is absent. -/
theorem c6_formatters_totality :
    (∀ (m : Obj) (k : String), pyGet m k = none →
      format_movie_info (m ++ [(k, "N/A")]) = format_movie_info m) ∧
    (∀ row : Obj,
      raisesErr (format_movie_from_csv row) = ! csvKeysPresent row) := by
  constructor
  · intro m k hk
    have hgen : ∀ f, pyGetD (m ++ [(k, "N/A")]) f "N/A" = pyGetD m f "N/A" := by
      intro f
      cases hkf : k == f
      · exact pyGetD_append_ne m k "N/A" f "N/A" hkf
      · have hkeq : k = f := by simpa using hkf
        subst hkeq
        rw [pyGetD_append_hit m k "N/A" "N/A" hk, pyGetD_of_none m k "N/A" hk]
    simp only [format_movie_info, format_movie_info_lines, hgen]
  · exact format_movie_from_csv_raises_iff

/-- Witness for the amended C6: a record without `Plot` formats identically
after adding `Plot = "N/A"`, and the empty row makes the CSV formatter
raise. -/
theorem c6_formatters_totality_witness :
    format_movie_info ([("Title", "Inception")] ++ [("Plot", "N/A")])
        = format_movie_info [("Title", "Inception")] ∧
    raisesErr (format_movie_from_csv []) = ! csvKeysPresent [] :=
  ⟨c6_formatters_totality.1 [("Title", "Inception")] "Plot" (by decide),
   c6_formatters_totality.2 []⟩

/-- C8: for a record without `Plot`, line 8 (0-based) of
`format_movie_info` renders "Описание: N/A", and supplying a `Plot` value
changes exactly that line: the output lines are the plot-less lines with
index 8 replaced. -/
theorem c8_plot_frame (m : Obj) (p : String) (h : pyGet m "Plot" = none) :
    (format_movie_info_lines m).get? 8 = some "Описание: N/A" ∧
    format_movie_info_lines (m ++ [("Plot", p)]) =
      (format_movie_info_lines m).set 8 ("Описание: " ++ p) := by
  constructor
  · simp only [format_movie_info_lines, pyGetD_of_none m "Plot" "N/A" h]
    rfl
  · simp only [format_movie_info_lines,
      pyGetD_append_ne m "Plot" p "Title" "N/A" (by decide),
      pyGetD_append_ne m "Plot" p "Year" "N/A" (by decide),
      pyGetD_append_ne m "Plot" p "Rated" "N/A" (by decide),
      pyGetD_append_ne m "Plot" p "Released" "N/A" (by decide),
      pyGetD_append_ne m "Plot" p "Runtime" "N/A" (by decide),
      pyGetD_append_ne m "Plot" p "Genre" "N/A" (by decide),
      pyGetD_append_ne m "Plot" p "Director" "N/A" (by decide),
      pyGetD_append_ne m "Plot" p "Actors" "N/A" (by decide),
      pyGetD_append_ne m "Plot" p "Language" "N/A" (by decide),
      pyGetD_append_ne m "Plot" p "Country" "N/A" (by decide),
      pyGetD_append_ne m "Plot" p "Awards" "N/A" (by decide),
      pyGetD_append_ne m "Plot" p "imdbRating" "N/A" (by decide),
      pyGetD_append_ne m "Plot" p "imdbVotes" "N/A" (by decide),
      pyGetD_append_hit m "Plot" p "N/A" h]
    rfl

/-- Witness for C8 at a concrete record without `Plot`. -/
theorem c8_plot_frame_witness :
    (format_movie_info_lines [("Title", "Inception")]).get? 8
        = some "Описание: N/A" ∧
    format_movie_info_lines ([("Title", "Inception")] ++ [("Plot", "A dream heist")])
        = (format_movie_info_lines [("Title", "Inception")]).set 8
            ("Описание: " ++ "A dream heist") :=
  c8_plot_frame [("Title", "Inception")] "A dream heist" (by decide)

/-- C7 counterexample: on 11 identical search records,
`search_movies_by_year_and_type` renders 11 lines (no truncation to 10) and
its first line is "1. T (Y)" — without the " - movie" type suffix the
spec's `formatSearchList` prescribes for every search-list tool. -/
theorem c7_counterexample :
    (searchYearTypeLines
      (List.replicate 11 [("Title", "T"), ("Year", "Y"), ("Type", "movie")])).length = 11 ∧
    (specFormatSearchList
      (List.replicate 11 [("Title", "T"), ("Year", "Y"), ("Type", "movie")])).length = 10 ∧
    (searchYearTypeLines
      (List.replicate 11 [("Title", "T"), ("Year", "Y"), ("Type", "movie")])).get? 0
        = some "1. T (Y)" ∧
    (specFormatSearchList
      (List.replicate 11 [("Title", "T"), ("Year", "Y"), ("Type", "movie")])).get? 0
        = some "1. T (Y) - movie" := by
  refine ⟨by decide, by decide, by decide, by decide⟩

/-- C7 (amended): `search_movies_list` renders exactly the spec's
`formatSearchList` lines — 1-indexed, input order, truncated to the first
10, each line "index. title (year) - type" — while
`search_movies_by_year_and_type` numbers all results with no truncation
(one line per record) and omits the type from each line. -/
theorem c7_search_lines (movies : List Obj) :
    searchListLines movies = specFormatSearchList movies ∧
    (searchYearTypeLines movies).length = movies.length := by
  refine ⟨rfl, ?_⟩
  simp [searchYearTypeLines]

/-- A dataframe row always carries every column `format_movie_from_csv`
indexes. -/
theorem csvKeysPresent_toRecord (r : CsvRow) :
    csvKeysPresent r.toRecord = true := rfl

/-- Formatting a dataframe row never raises. -/
theorem format_toRecord_ok (r : CsvRow) :
    raisesErr (format_movie_from_csv r.toRecord) = false := by
  rw [format_movie_from_csv_raises_iff, csvKeysPresent_toRecord]
  rfl

/-- When the title's regex compilation succeeds, the CSV fallback never
raises: it formats the first matching dataframe row or degrades to the
not-found message. In particular, under a `LiteralFaithful` engine, every
metacharacter-free title is safe. -/
theorem csvFallback_ok_of_compile_ok (compile : ReCompile)
    (df : Option (List CsvRow)) (title : String) (matcher : String → Bool)
    (hc : compile title = .ok matcher) :
    raisesErr (csvFallback compile df title) = false := by
  cases df with
  | none => rfl
  | some rows =>
    simp only [csvFallback, hc]
    cases hfil : rows.filter (fun r => matcher r.seriesTitle) with
    | nil => simp [hfil, raisesErr]
    | cons r rest =>
      simpa [hfil] using format_toRecord_ok r

/-- Under any engine with Python's literal-pattern behavior, a title free
of regex metacharacters never makes the fallback raise: the raise path is
reachable only through the regex interpretation of the title. -/
theorem csvFallback_ok_of_literal_title (compile : ReCompile)
    (hf : LiteralFaithful compile) (df : Option (List CsvRow))
    (title : String) (ht : reLiteralPat title = true) :
    raisesErr (csvFallback compile df title) = false :=
  csvFallback_ok_of_compile_ok compile df title _ (hf title ht)

/-- C4 (code bug): the fallback path of `search_movie_by_title` can raise.
`df["Series_Title"].str.contains(title, case=False, na=False)` compiles the
user-supplied title as a regular expression (`regex=True` is the pandas
default); whenever that compilation raises `re.error` — as Python's `re`
does on the unbalanced title "(" — the raise is not caught by the tool's
`except OMDBAPIError` and propagates out of the fallback instead of
degrading to the user-facing not-found message the spec requires. -/
theorem c4_fallback_raises_on_bad_regex_title (compile : ReCompile)
    (oc : ApiResult) (rows : List CsvRow) (title e : String)
    (hoc : oc = .noneResult ∨ ∃ err, oc = .failed err)
    (hcomp : compile title = .error e) :
    search_movie_by_title compile oc (some rows) title = .error e ∧
    raisesErr (search_movie_by_title compile oc (some rows) title) = true := by
  obtain (rfl | ⟨err, rfl⟩) := hoc <;>
    simp [search_movie_by_title, csvFallback, hcomp, raisesErr]

/-- Witness for C4 at the failing input: title "(" (whose `re.compile`
raises), a one-row dataset, and a `NotFound` API outcome make the tool
raise instead of returning text. -/
theorem c4_fallback_raises_witness :
    search_movie_by_title reWitnessCompile .noneResult (some [matrixRow]) "("
        = .error "re.error: bad pattern: (" ∧
    raisesErr
        (search_movie_by_title reWitnessCompile .noneResult (some [matrixRow]) "(")
      = true :=
  c4_fallback_raises_on_bad_regex_title reWitnessCompile .noneResult [matrixRow]
    "(" "re.error: bad pattern: (" (Or.inl rfl) rfl

/-- C5: a dataset load failure is absorbed at module initialization
(`loadDf` maps it to `None` instead of propagating), and each of the four
dataset-backed tools called with `df = None` returns the literal
unavailable message instead of raising. -/
theorem c5_dataset_unavailable :
    (∀ e : String, loadDf (Except.error e) = none) ∧
    (∀ genre limit, get_top_movies_by_genre genre limit none = unavailableMsg) ∧
    (∀ director, get_movies_by_director director none = unavailableMsg) ∧
    (∀ actor, get_movies_by_actor actor none = unavailableMsg) ∧
    (∀ minRating genre limit,
      get_movies_by_rating minRating genre limit none = unavailableMsg) :=
  ⟨fun _ => rfl, fun _ _ => rfl, fun _ => rfl, fun _ => rfl, fun _ _ _ => rfl⟩

/-- C9: when both lookups return data, swapping the two titles yields the
comparison of the swapped records, whose field rows carry the same labels
in the same order with the two per-movie entries exchanged. -/
theorem c9_compare_swap (api : String → ApiResult) (t1 t2 : String)
    (d1 d2 : Obj) (h1 : api t1 = .ok d1) (h2 : api t2 = .ok d2) :
    compare_two_movies api t1 t2 = comparisonText d1 d2 ∧
    compare_two_movies api t2 t1 = comparisonText d2 d1 ∧
    comparisonFields d2 d1 =
      (comparisonFields d1 d2).map (fun row => (row.1, row.2.2, row.2.1)) := by
  refine ⟨?_, ?_, ?_⟩
  · simp only [compare_two_movies, h1, h2]
  · simp only [compare_two_movies, h1, h2]
  · simp [comparisonFields]

/-- Witness for C9 at a two-title lookup table. -/
theorem c9_compare_swap_witness :
    compare_two_movies
        (fun t => if t == "Movie A" then .ok [("Title", "Movie A"), ("Year", "2001")]
          else .ok [("Title", "Movie B"), ("Year", "2002")])
        "Movie A" "Movie B"
      = comparisonText [("Title", "Movie A"), ("Year", "2001")]
          [("Title", "Movie B"), ("Year", "2002")] ∧
    compare_two_movies
        (fun t => if t == "Movie A" then .ok [("Title", "Movie A"), ("Year", "2001")]
          else .ok [("Title", "Movie B"), ("Year", "2002")])
        "Movie B" "Movie A"
      = comparisonText [("Title", "Movie B"), ("Year", "2002")]
          [("Title", "Movie A"), ("Year", "2001")] ∧
    comparisonFields [("Title", "Movie B"), ("Year", "2002")]
        [("Title", "Movie A"), ("Year", "2001")]
      = (comparisonFields [("Title", "Movie A"), ("Year", "2001")]
          [("Title", "Movie B"), ("Year", "2002")]).map
            (fun row => (row.1, row.2.2, row.2.1)) :=
  c9_compare_swap _ "Movie A" "Movie B" _ _ (by decide) (by decide)
